import Mathlib

/-
Verification of the bulk-assignment workflow in scripts/setup_projects.py and
the ruleset check in scripts/configure_required_checks.py.

The external command-line client is modelled as an abstract transport: each
kind of external call is a function from its arguments to either a parsed
JSON response (zero exit status, stdout decoded) or a captured standard-error
text (non-zero exit status, which the Python code sees as a raised
subprocess.CalledProcessError).  JSON values are modelled by the inductive
type Json; Python dictionary subscripting, dict.get with a default, and
truthiness are modelled by pyGetItem, jsonLookup / pyGetBodyField and
pyTruthy respectively.  Python exceptions that can arise in these scripts are
modelled by the inductive type Exn.
-/

namespace SetupProjects

/-- JSON values, as produced by json.loads on the stdout of the client. -/
inductive Json where
  | null : Json
  | bool : Bool → Json
  | num : Int → Json
  | str : String → Json
  | arr : List Json → Json
  | obj : List (String × Json) → Json

/-- Python exceptions raised by the code under study.  keyError and
indexError are the two subclasses of LookupError that can occur here. -/
inductive Exn where
  | calledProcessError : String → Exn
  | keyError : String → Exn
  | indexError : Exn
  | typeError : Exn
  | attributeError : Exn
deriving DecidableEq

/-- Python isinstance(e, LookupError): KeyError and IndexError are the
LookupError subclasses. -/
def isLookupError : Exn → Bool
  | .keyError _ => true
  | .indexError => true
  | _ => false

/-- Rendering of str(e) for a Python exception; the exact text is not
load-bearing anywhere, only the fact that a message string is recorded. -/
def exnMessage : Exn → String
  | .calledProcessError _ => "Command returned non-zero exit status 1."
  | .keyError k => "KeyError: " ++ k
  | .indexError => "list index out of range"
  | .typeError => "TypeError"
  | .attributeError => "AttributeError"

/-- Substring search on character lists: some suffix of the haystack has the
needle as a prefix.  Models the Python `in` operator on strings. -/
def listContains (needle : List Char) : List Char → Bool
  | [] => needle.isEmpty
  | c :: rest => needle.isPrefixOf (c :: rest) || listContains needle rest

/-- Python `sub in s` for strings. -/
def strContains (s sub : String) : Bool :=
  listContains sub.toList s.toList

/-- Python str.lower(), character by character (the stderr texts matched in
the source are ASCII, where this agrees with Python). -/
def pyLower (s : String) : String :=
  ⟨s.data.map Char.toLower⟩

/-- First binding of a key in an association list, as Python dict lookup
(the concrete dictionaries in the scripts have distinct keys). -/
def jsonLookup (fields : List (String × Json)) (k : String) : Option Json :=
  match fields.find? (fun kv => kv.1 == k) with
  | some kv => some kv.2
  | none => none

/-- Python subscripting value[k] by a string key: a dict yields the binding
or raises KeyError; None raises TypeError; any other value raises TypeError
(string, list and number subscripts by a string key are TypeErrors). -/
def pyGetItem (v : Json) (k : String) : Except Exn Json :=
  match v with
  | .obj fields =>
    match jsonLookup fields k with
    | some w => .ok w
    | none => .error (.keyError k)
  | _ => .error .typeError

/-- Python truthiness of a JSON value. -/
def pyTruthy : Json → Bool
  | .null => false
  | .bool b => b
  | .num n => n != 0
  | .str s => s != ""
  | .arr l => !l.isEmpty
  | .obj l => !l.isEmpty

/-- Python dict[k] on a string-keyed dictionary with payload α. -/
def pyDictGet {α : Type} (d : List (String × α)) (k : String) : Except Exn α :=
  match d.find? (fun kv => kv.1 == k) with
  | some kv => .ok kv.2
  | none => .error (.keyError k)

/-- Exception-free view of an Except result. -/
def exOk {ε α : Type} : Except ε α → Bool
  | .ok _ => true
  | .error _ => false

/-- An external call issued by the bulk-assignment script, recorded for
trace-level properties (which calls were made, with which payloads). -/
inductive Call where
  | issueQuery : Nat → Call
  | addToProject : String → Json → Call
  | milestoneEdit : Nat → Nat → Call
  | viewBody : Nat → Call
  | bodyEdit : Nat → String → Call

/-- The external command-line client, as an opaque collaborator: each call
either returns the parsed stdout (exit status zero) or fails carrying the
captured standard-error text (non-zero exit status, seen by the Python code
as subprocess.CalledProcessError).  The stdout of the two `gh issue edit`
call shapes is never parsed by the script, hence Unit. -/
structure Transport where
  issueQuery : Nat → Except String Json
  addMutation : String → Json → Except String Json
  milestoneEdit : Nat → Nat → Except String Unit
  viewBody : Nat → Except String Json
  bodyEdit : Nat → String → Except String Unit

/-- Model of get_issue_node_id: run the GraphQL issue query (check=True, so
a non-zero exit raises CalledProcessError), then take
data[\x7b'data'\x7d]['repository']['issue']['id'] on the parsed stdout.
Returns the result together with the list of external calls issued. -/
def get_issue_node_id (t : Transport) (issue_num : Nat) :
    Except Exn Json × List Call :=
  match t.issueQuery issue_num with
  | .error stderr => (.error (.calledProcessError stderr), [.issueQuery issue_num])
  | .ok data =>
    (do
      let d ← pyGetItem data "data"
      let r ← pyGetItem d "repository"
      let i ← pyGetItem r "issue"
      pyGetItem i "id", [.issueQuery issue_num])

/-- Model of add_issue_to_project: run the addProjectV2ItemById mutation; on
CalledProcessError, if the lowered stderr contains "already exists" or
"already added" return None (the item is already in the project), otherwise
re-raise; on success return data['data']['addProjectV2ItemById']['item']['id']
(any exception from that nested access propagates, since the except clause
only catches CalledProcessError). -/
def add_issue_to_project (t : Transport) (project_id : String)
    (issue_node_id : Json) : Except Exn (Option Json) × List Call :=
  match t.addMutation project_id issue_node_id with
  | .error stderr =>
    if strContains (pyLower stderr) "already exists"
        || strContains (pyLower stderr) "already added" then
      (.ok none, [.addToProject project_id issue_node_id])
    else
      (.error (.calledProcessError stderr), [.addToProject project_id issue_node_id])
  | .ok data =>
    ((do
      let d ← pyGetItem data "data"
      let a ← pyGetItem d "addProjectV2ItemById"
      let it ← pyGetItem a "item"
      pyGetItem it "id").map some, [.addToProject project_id issue_node_id])

/-- Model of set_issue_milestone: run `gh issue edit --milestone`; True on
success, False when the command fails (CalledProcessError caught). -/
def set_issue_milestone (t : Transport) (issue_num milestone_num : Nat) :
    Bool × List Call :=
  match t.milestoneEdit issue_num milestone_num with
  | .ok _ => (true, [.milestoneEdit issue_num milestone_num])
  | .error _ => (false, [.milestoneEdit issue_num milestone_num])

/-- Model of data.get('body', '') or '' on the parsed stdout of
`gh issue view --json body`: a missing key or a falsy value (None, empty
string, False, 0, empty list, empty dict) yields the empty string; a
non-empty string is returned as is.  A truthy non-string body would flow
into `marker not in body` in Python, raising TypeError for numbers and
producing type-confused results for containers; the model collapses those
exotic shapes to TypeError, and applying .get to a non-dict is
AttributeError — both propagate out of set_issue_due_date, whose except
clause only catches CalledProcessError. -/
def pyGetBodyField : Json → Except Exn String
  | .obj fields =>
    match jsonLookup fields "body" with
    | none => .ok ""
    | some v =>
      match v with
      | .str s => .ok s
      | w => if pyTruthy w then .error .typeError else .ok ""
  | _ => .error .attributeError

/-- Model of set_issue_due_date: fetch the current body (a failed view
command returns False); extract the body text; if the exact marker line
is not already a substring of the body, append it (after a blank line for a
non-empty body, bare otherwise) and issue the body-edit call (a failed edit
command returns False); otherwise issue no edit.  Returns the result and
the list of external calls issued. -/
def set_issue_due_date (t : Transport) (issue_num : Nat) (date_str : String) :
    Except Exn Bool × List Call :=
  match t.viewBody issue_num with
  | .error _ => (.ok false, [.viewBody issue_num])
  | .ok data =>
    match pyGetBodyField data with
    | .error e => (.error e, [.viewBody issue_num])
    | .ok body =>
      let marker := "**Due Date:** " ++ date_str
      if strContains body marker then
        (.ok true, [.viewBody issue_num])
      else
        let newBody := if body = "" then marker else body ++ "\n\n" ++ marker
        match t.bodyEdit issue_num newBody with
        | .error _ => (.ok false, [.viewBody issue_num, .bodyEdit issue_num newBody])
        | .ok _ => (.ok true, [.viewBody issue_num, .bodyEdit issue_num newBody])

/-- An assignment tuple (issue_num, phase, milestone, date). -/
abbrev Tup := Nat × String × String × String

/-- A project_map entry: the project number and its opaque identifier. -/
structure ProjEntry where
  number : Nat
  id : String
deriving DecidableEq

/-- The milestone_map table: milestone name to milestone number. -/
def milestone_map : List (String × Nat) :=
  [("Security Fix", 2), ("Database Improvements", 3), ("Poller Enhancements", 4),
   ("Card Metadata Source", 5), ("Full Integration", 6),
   ("Basic Statistics", 7), ("Advanced Analytics", 8), ("Rank Features", 9),
   ("Draft Storage", 10), ("Draft Display", 11), ("Draft Analytics", 12),
   ("Collection Features", 13), ("Deck Analysis", 14), ("Collection-Deck Integration", 15),
   ("GUI Foundation", 16), ("Statistics GUI", 17), ("Charts & Graphs", 18),
   ("Advanced GUI Features", 19),
   ("Export Features", 20), ("External Integration", 21)]

/-- The project_map table: project name to number and identifier. -/
def project_map : List (String × ProjEntry) :=
  [("Security & Infrastructure", ⟨2, "PVT_kwHOABsZ684BHe6N"⟩),
   ("Card Metadata Integration", ⟨3, "PVT_kwHOABsZ684BHe6O"⟩),
   ("Statistics Enhancements", ⟨4, "PVT_kwHOABsZ684BHe6P"⟩),
   ("Draft Features", ⟨5, "PVT_kwHOABsZ684BHe6Q"⟩),
   ("Collection & Deck Management", ⟨6, "PVT_kwHOABsZ684BHe6S"⟩),
   ("Fyne GUI Foundation", ⟨7, "PVT_kwHOABsZ684BHe6V"⟩),
   ("GUI Features", ⟨8, "PVT_kwHOABsZ684BHe6W"⟩),
   ("Export & Integration", ⟨9, "PVT_kwHOABsZ684BHe6X"⟩)]

/-- The assignments table: project number to its list of
(issue_num, phase, milestone, date) tuples. -/
def assignments : List (Nat × List Tup) :=
  [(2, [(31, "Phase 1: Security", "Security Fix", "2025-11-07"),
        (59, "Phase 2: Database", "Database Improvements", "2025-11-08"),
        (60, "Phase 2: Database", "Database Improvements", "2025-11-09"),
        (65, "Phase 3: Poller", "Poller Enhancements", "2025-11-10"),
        (66, "Phase 3: Poller", "Poller Enhancements", "2025-11-11"),
        (67, "Phase 3: Poller", "Poller Enhancements", "2025-11-12"),
        (68, "Phase 3: Poller", "Poller Enhancements", "2025-11-13"),
        (69, "Phase 3: Poller", "Poller Enhancements", "2025-11-14")]),
   (3, [(71, "Phase 1: Foundation", "Card Metadata Source", "2025-11-15"),
        (79, "Phase 2: Integration", "Full Integration", "2025-11-16"),
        (118, "Phase 2: Integration", "Full Integration", "2025-11-17")]),
   (4, [(38, "Phase 1: Core Statistics", "Basic Statistics", "2025-11-18"),
        (39, "Phase 1: Core Statistics", "Basic Statistics", "2025-11-19"),
        (40, "Phase 1: Core Statistics", "Basic Statistics", "2025-11-20"),
        (41, "Phase 1: Core Statistics", "Basic Statistics", "2025-11-21"),
        (42, "Phase 1: Core Statistics", "Basic Statistics", "2025-11-22"),
        (43, "Phase 1: Core Statistics", "Basic Statistics", "2025-11-23"),
        (44, "Phase 1: Core Statistics", "Basic Statistics", "2025-11-24"),
        (45, "Phase 1: Core Statistics", "Basic Statistics", "2025-11-25"),
        (46, "Phase 1: Core Statistics", "Basic Statistics", "2025-11-26"),
        (47, "Phase 2: Advanced Analytics", "Advanced Analytics", "2025-11-27"),
        (48, "Phase 1: Core Statistics", "Basic Statistics", "2025-11-28"),
        (49, "Phase 1: Core Statistics", "Basic Statistics", "2025-11-29"),
        (57, "Phase 2: Advanced Analytics", "Advanced Analytics", "2025-11-30"),
        (72, "Phase 1: Core Statistics", "Basic Statistics", "2025-12-01"),
        (76, "Phase 1: Core Statistics", "Basic Statistics", "2025-12-02"),
        (81, "Phase 1: Core Statistics", "Basic Statistics", "2025-12-03"),
        (87, "Phase 2: Advanced Analytics", "Advanced Analytics", "2025-12-04"),
        (88, "Phase 2: Advanced Analytics", "Advanced Analytics", "2025-12-05"),
        (89, "Phase 2: Advanced Analytics", "Advanced Analytics", "2025-12-06"),
        (90, "Phase 2: Advanced Analytics", "Advanced Analytics", "2025-12-07"),
        (91, "Phase 2: Advanced Analytics", "Advanced Analytics", "2025-12-08"),
        (92, "Phase 2: Advanced Analytics", "Advanced Analytics", "2025-12-09"),
        (94, "Phase 2: Advanced Analytics", "Advanced Analytics", "2025-12-10"),
        (95, "Phase 2: Advanced Analytics", "Advanced Analytics", "2025-12-11"),
        (96, "Phase 2: Advanced Analytics", "Advanced Analytics", "2025-12-12"),
        (97, "Phase 2: Advanced Analytics", "Advanced Analytics", "2025-12-13"),
        (98, "Phase 2: Advanced Analytics", "Advanced Analytics", "2025-12-14"),
        (99, "Phase 2: Advanced Analytics", "Advanced Analytics", "2025-12-15"),
        (100, "Phase 1: Core Statistics", "Basic Statistics", "2025-12-16"),
        (102, "Phase 3: Rank Tracking", "Rank Features", "2025-12-17"),
        (103, "Phase 3: Rank Tracking", "Rank Features", "2025-12-18"),
        (104, "Phase 3: Rank Tracking", "Rank Features", "2025-12-19"),
        (105, "Phase 3: Rank Tracking", "Rank Features", "2025-12-20"),
        (106, "Phase 3: Rank Tracking", "Rank Features", "2025-12-21"),
        (107, "Phase 3: Rank Tracking", "Rank Features", "2025-12-22"),
        (108, "Phase 3: Rank Tracking", "Rank Features", "2025-12-23"),
        (109, "Phase 3: Rank Tracking", "Rank Features", "2025-12-24"),
        (110, "Phase 3: Rank Tracking", "Rank Features", "2025-12-25")]),
   (5, [(112, "Phase 1: Storage", "Draft Storage", "2025-12-26"),
        (113, "Phase 2: Display", "Draft Display", "2025-12-27"),
        (114, "Phase 2: Display", "Draft Display", "2025-12-28"),
        (115, "Phase 3: Analytics", "Draft Analytics", "2025-12-29"),
        (116, "Phase 2: Display", "Draft Display", "2025-12-30"),
        (117, "Phase 2: Display", "Draft Display", "2025-12-31"),
        (118, "Phase 2: Display", "Draft Display", "2026-01-01"),
        (119, "Phase 3: Analytics", "Draft Analytics", "2026-01-02"),
        (120, "Phase 3: Analytics", "Draft Analytics", "2026-01-03"),
        (121, "Phase 3: Analytics", "Draft Analytics", "2026-01-04"),
        (122, "Phase 3: Analytics", "Draft Analytics", "2026-01-05")]),
   (6, [(73, "Phase 1: Collection", "Collection Features", "2026-01-06"),
        (74, "Phase 3: Integration", "Collection-Deck Integration", "2026-01-07"),
        (75, "Phase 3: Integration", "Collection-Deck Integration", "2026-01-08"),
        (76, "Phase 1: Collection", "Collection Features", "2026-01-09"),
        (77, "Phase 1: Collection", "Collection Features", "2026-01-10"),
        (80, "Phase 2: Deck Analysis", "Deck Analysis", "2026-01-11"),
        (82, "Phase 2: Deck Analysis", "Deck Analysis", "2026-01-12"),
        (83, "Phase 3: Integration", "Collection-Deck Integration", "2026-01-13"),
        (84, "Phase 3: Integration", "Collection-Deck Integration", "2026-01-14"),
        (85, "Phase 3: Integration", "Collection-Deck Integration", "2026-01-15")]),
   (7, [(50, "Phase 1: Foundation", "GUI Foundation", "2026-01-16"),
        (53, "Phase 1: Foundation", "GUI Foundation", "2026-01-17")]),
   (8, [(51, "Phase 1: Statistics GUI", "Statistics GUI", "2026-01-18"),
        (52, "Phase 2: Visualizations", "Charts & Graphs", "2026-01-19"),
        (54, "Phase 2: Visualizations", "Charts & Graphs", "2026-01-20"),
        (55, "Phase 1: Statistics GUI", "Statistics GUI", "2026-01-21"),
        (56, "Phase 3: Advanced Features", "Advanced GUI Features", "2026-01-22"),
        (61, "Phase 3: Advanced Features", "Advanced GUI Features", "2026-01-23"),
        (62, "Phase 3: Advanced Features", "Advanced GUI Features", "2026-01-24"),
        (63, "Phase 3: Advanced Features", "Advanced GUI Features", "2026-01-25"),
        (77, "Phase 1: Statistics GUI", "Statistics GUI", "2026-01-26"),
        (90, "Phase 2: Visualizations", "Charts & Graphs", "2026-01-27"),
        (98, "Phase 2: Visualizations", "Charts & Graphs", "2026-01-28"),
        (105, "Phase 1: Statistics GUI", "Statistics GUI", "2026-01-29"),
        (110, "Phase 2: Visualizations", "Charts & Graphs", "2026-01-30"),
        (113, "Phase 1: Statistics GUI", "Statistics GUI", "2026-01-31"),
        (114, "Phase 1: Statistics GUI", "Statistics GUI", "2026-02-01"),
        (117, "Phase 2: Visualizations", "Charts & Graphs", "2026-02-02")]),
   (9, [(42, "Phase 1: Export", "Export Features", "2026-02-03"),
        (58, "Phase 2: Integration", "External Integration", "2026-02-04"),
        (73, "Phase 1: Export", "Export Features", "2026-02-05"),
        (82, "Phase 1: Export", "Export Features", "2026-02-06"),
        (92, "Phase 1: Export", "Export Features", "2026-02-07"),
        (97, "Phase 1: Export", "Export Features", "2026-02-08"),
        (116, "Phase 1: Export", "Export Features", "2026-02-09")])]

/-- Python truthiness of the item_id returned by add_issue_to_project
(None is falsy; otherwise the JSON value decides). -/
def pyTruthyOpt : Option Json → Bool
  | none => false
  | some v => pyTruthy v

/-- Result of processing one assignment tuple: the body of the inner try
block — ok () when the tuple ran to the `processed += 1` line, or the
exception that aborted it — plus the external calls issued and the text
printed for this tuple so far (excluding the error line, which the
surrounding except clause prints). -/
structure TupleResult where
  res : Except Exn Unit
  trace : List Call
  output : String

/-- Model of the body of the per-issue try block in main: print the issue
header, resolve the node id, add to the project (printing which outcome),
look up the milestone number, set the milestone, set the due date, print
the check mark.  Any exception aborts the remaining steps of this tuple. -/
def processTuple (t : Transport) (mm : List (String × Nat)) (pid : String)
    (tup : Tup) : TupleResult :=
  let (n, _phase, milestone, date_str) := tup
  let out0 := "  Issue #" ++ toString n ++ "... "
  match get_issue_node_id t n with
  | (.error e, c1) => ⟨.error e, c1, out0⟩
  | (.ok nodeId, c1) =>
    match add_issue_to_project t pid nodeId with
    | (.error e, c2) => ⟨.error e, c1 ++ c2, out0⟩
    | (.ok itemId, c2) =>
      let out1 := out0 ++
        (if pyTruthyOpt itemId then "added to project, " else "already in project, ")
      match pyDictGet mm milestone with
      | .error e => ⟨.error e, c1 ++ c2, out1⟩
      | .ok mnum =>
        match set_issue_milestone t n mnum with
        | (msOk, c3) =>
          let out2 := out1 ++ (if msOk then "milestone set, " else "")
          match set_issue_due_date t n date_str with
          | (.error e, c4) => ⟨.error e, c1 ++ c2 ++ c3 ++ c4, out2⟩
          | (.ok ddOk, c4) =>
            let out3 := out2 ++ (if ddOk then "due date set" else "") ++ " ✓\n"
            ⟨.ok (), c1 ++ c2 ++ c3 ++ c4, out3⟩

/-- Accumulated outcome of the inner per-issue loop (and of the whole run):
the processed counter, the failure list in order, the external calls and
the printed text. -/
structure LoopAcc where
  processed : Nat
  errors : List (Nat × String)
  trace : List Call
  output : String

/-- Model of the inner loop of main over the issues of one project: each
tuple either increments processed or, when its processing raised, has
(issue_num, str(e)) appended to the failure list and the error line
printed, after which the loop proceeds to the next tuple. -/
def runIssues (t : Transport) (mm : List (String × Nat)) (pid : String) :
    List Tup → LoopAcc
  | [] => ⟨0, [], [], ""⟩
  | tup :: rest =>
    let r := processTuple t mm pid tup
    let acc := runIssues t mm pid rest
    match r.res with
    | .ok _ =>
      ⟨acc.processed + 1, acc.errors, r.trace ++ acc.trace, r.output ++ acc.output⟩
    | .error e =>
      ⟨acc.processed, (tup.1, exnMessage e) :: acc.errors, r.trace ++ acc.trace,
        (r.output ++ " ✗ Error: " ++ exnMessage e ++ "\n") ++ acc.output⟩

/-- Model of the project-name and project-id lookups at the top of the
outer loop: the comprehension [k for k, v in project_map.items() if
v["number"] == project_num][0] — IndexError when no entry matches — then
project_map[project_name]["id"].  These run outside the per-issue try
block, so their exceptions are uncaught. -/
def projectLookup (pm : List (String × ProjEntry)) (pnum : Nat) :
    Except Exn (String × String) :=
  match (pm.filter (fun kv => kv.2.number == pnum)).head? with
  | none => .error .indexError
  | some kv =>
    match pyDictGet pm kv.1 with
    | .error e => .error e
    | .ok entry => .ok (kv.1, entry.id)

/-- The project id the main loop uses for a given project number (only
meaningful when projectLookup succeeds). -/
def pidOf (pm : List (String × ProjEntry)) (pnum : Nat) : String :=
  match projectLookup pm pnum with
  | .ok nameId => nameId.2
  | .error _ => ""

/-- Model of the outer loop of main over the assignment table: per project,
resolve the project name and id (uncaught exceptions abort the whole run),
print the project header and run the inner loop. -/
def runProjects (t : Transport) (pm : List (String × ProjEntry))
    (mm : List (String × Nat)) : List (Nat × List Tup) → Except Exn LoopAcc
  | [] => .ok ⟨0, [], [], ""⟩
  | (pnum, issues) :: rest =>
    match projectLookup pm pnum with
    | .error e => .error e
    | .ok (pname, pid) =>
      let header := "\nProcessing " ++ pname ++ " (" ++ toString issues.length
        ++ " issues)...\n"
      let ri := runIssues t mm pid issues
      match runProjects t pm mm rest with
      | .error e => .error e
      | .ok acc =>
        .ok ⟨ri.processed + acc.processed, ri.errors ++ acc.errors,
          ri.trace ++ acc.trace, header ++ ri.output ++ acc.output⟩

/-- Outcome of a completed run of main. -/
structure RunOutcome where
  processed : Nat
  total : Nat
  errors : List (Nat × String)
  trace : List Call
  output : String

/-- Model of main: compute total, run both loops, then print the summary
line and, when there are failures, the error block.  An uncaught exception
(only possible in projectLookup) propagates. -/
def mainRun (t : Transport) (pm : List (String × ProjEntry))
    (mm : List (String × Nat)) (table : List (Nat × List Tup)) :
    Except Exn RunOutcome :=
  let total := (table.map (fun pr => pr.2.length)).sum
  match runProjects t pm mm table with
  | .error e => .error e
  | .ok acc =>
    let summary := "\n\nCompleted: " ++ toString acc.processed ++ "/"
      ++ toString total ++ " issues processed\n"
    let errBlock :=
      if acc.errors.isEmpty then "" else
        "\nErrors (" ++ toString acc.errors.length ++ "):\n"
        ++ String.join (acc.errors.map
            (fun pe => "  Issue #" ++ toString pe.1 ++ ": " ++ pe.2 ++ "\n"))
    .ok ⟨acc.processed, total, acc.errors, acc.trace,
      acc.output ++ summary ++ errBlock⟩

/-- Exit status of the bulk-assignment script on a given table: 0 when main
returns, 1 when an uncaught exception ends the interpreter.  The script
itself runs with the static project_map, milestone_map and the table. -/
def scriptExitCode (t : Transport) (table : List (Nat × List Tup)) : Nat :=
  match mainRun t project_map milestone_map table with
  | .ok _ => 0
  | .error _ => 1

/-- Trace predicate: a milestone-edit call with these arguments occurs. -/
def hasMilestoneCall (n m : Nat) : List Call → Bool
  | [] => false
  | .milestoneEdit a b :: rest => (a == n && b == m) || hasMilestoneCall n m rest
  | _ :: rest => hasMilestoneCall n m rest

/-- Trace predicate: a body-edit call for this issue with this body occurs. -/
def hasBodyEditCall (n : Nat) (b : String) : List Call → Bool
  | [] => false
  | .bodyEdit a s :: rest => (a == n && s == b) || hasBodyEditCall n b rest
  | _ :: rest => hasBodyEditCall n b rest

/-- Trace predicate: some body-edit call occurs. -/
def hasAnyBodyEdit : List Call → Bool
  | [] => false
  | .bodyEdit _ _ :: _ => true
  | _ :: rest => hasAnyBodyEdit rest

/-- Trace predicate: a body-view call for this issue occurs. -/
def hasViewCall (n : Nat) : List Call → Bool
  | [] => false
  | .viewBody a :: rest => a == n || hasViewCall n rest
  | _ :: rest => hasViewCall n rest

/-- Number of add-to-project calls in a trace. -/
def countAddCalls : List Call → Nat
  | [] => 0
  | .addToProject _ _ :: rest => countAddCalls rest + 1
  | _ :: rest => countAddCalls rest

/-- A well-shaped response to the issue-id query, carrying a node id
derived from the issue number. -/
def goodIssueResponse (n : Nat) : Json :=
  .obj [("data", .obj [("repository",
    .obj [("issue", .obj [("id", .str ("NODE" ++ toString n))])])])]

/-- A well-shaped response to the add-to-project mutation. -/
def goodAddResponse : Json :=
  .obj [("data", .obj [("addProjectV2ItemById",
    .obj [("item", .obj [("id", .str "ITEM")])])])]

/-- A transport for which every call succeeds; issues are viewed as having
the body "Old body". -/
def okTransport : Transport where
  issueQuery := fun n => .ok (goodIssueResponse n)
  addMutation := fun _ _ => .ok goodAddResponse
  milestoneEdit := fun _ _ => .ok ()
  viewBody := fun _ => .ok (.obj [("body", .str "Old body")])
  bodyEdit := fun _ _ => .ok ()

/-- A transport for which every issue-id lookup fails with a non-zero exit
status (every other call would succeed, but is never reached). -/
def failLookupTransport : Transport :=
  { okTransport with issueQuery := fun _ => .error "lookup failed" }

/-- Processed counter of a completed run (0 when the run crashed). -/
def runProcessed : Except Exn RunOutcome → Nat
  | .ok r => r.processed
  | .error _ => 0

/-- Failure list of a completed run. -/
def runErrors : Except Exn RunOutcome → List (Nat × String)
  | .ok r => r.errors
  | .error _ => []

/-- Call trace of a completed run. -/
def runTrace : Except Exn RunOutcome → List Call
  | .ok r => r.trace
  | .error _ => []

/-- Printed output of a completed run. -/
def runOutput : Except Exn RunOutcome → String
  | .ok r => r.output
  | .error _ => ""

end SetupProjects

namespace ConfigureChecks

open SetupProjects (Json Exn jsonLookup pyTruthy pyGetItem)

/-- Model of get_current_ruleset via run_gh_command: none when the gh
command failed or its stdout was not valid JSON (both are caught inside
run_gh_command, which prints the error and returns None), otherwise the
parsed ruleset JSON. -/
def RulesetResponse := Option Json

/-- The per-rule test r.get("type") == "required_status_checks" on a rule
object with fields f (dict.get without a default returns None when the key
is missing; comparison with the string is False for any non-string). -/
def ruleTypeMatches (f : List (String × Json)) : Bool :=
  match jsonLookup f "type" with
  | some (.str s) => s == "required_status_checks"
  | _ => false

/-- Model of the any(...) generator over current.get('rules', []): for each
element, r.get('type') == "required_status_checks"; applying .get to a
non-dict element raises AttributeError, which propagates. -/
def anyRequiredChecks : List Json → Except Exn Bool
  | [] => .ok false
  | r :: rest =>
    match r with
    | .obj f => if ruleTypeMatches f then .ok true else anyRequiredChecks rest
    | _ => .error .attributeError

/-- Model of update_ruleset_with_required_checks: when the ruleset could
not be fetched (None) or is falsy, print an error and return False; when a
rule of type required_status_checks exists, return True; otherwise print
the manual instructions and return False.  current.get('rules', []) on a
non-dict raises AttributeError and iterating a non-list rules value
misbehaves in kind (collapsed here to TypeError); both propagate out of the
function. -/
def update_ruleset_with_required_checks (resp : Option Json) :
    Except Exn Bool :=
  match resp with
  | none => .ok false
  | some current =>
    if pyTruthy current then
      match current with
      | .obj fields =>
        let rules := (jsonLookup fields "rules").getD (.arr [])
        match rules with
        | .arr rs => anyRequiredChecks rs
        | _ => .error .typeError
      | _ => .error .attributeError
    else
      .ok false

/-- Exit status of the ruleset-check script: sys.exit(0 if success else 1),
and 1 when an uncaught exception ends the interpreter. -/
def checkExitCode (resp : Option Json) : Nat :=
  match update_ruleset_with_required_checks resp with
  | .ok true => 0
  | .ok false => 1
  | .error _ => 1

/-- Whether a list of rule values contains an object whose type field is
the string "required_status_checks". -/
def hasRequiredRule (rs : List Json) : Bool :=
  rs.any (fun r =>
    match r with
    | .obj f => ruleTypeMatches f
    | _ => false)

/-- Whether a JSON value is an object. -/
def isObjJson : Json → Bool
  | .obj _ => true
  | _ => false

end ConfigureChecks

namespace SetupProjects

/- Helper lemmas about substring search. -/

lemma listContains_nil (l : List Char) : listContains [] l = true := by
  cases l <;> simp [listContains, List.isPrefixOf]

lemma isPrefixOf_append_of {l s : List Char} (tl : List Char)
    (h : l.isPrefixOf s = true) : l.isPrefixOf (s ++ tl) = true := by
  induction l generalizing s with
  | nil => simp [List.isPrefixOf]
  | cons a as ih =>
    cases s with
    | nil => simp [List.isPrefixOf] at h
    | cons b bs =>
      simp only [List.isPrefixOf, List.cons_append, Bool.and_eq_true] at h ⊢
      exact ⟨h.1, ih h.2⟩

lemma isPrefixOf_self_append (l tl : List Char) :
    l.isPrefixOf (l ++ tl) = true := by
  induction l with
  | nil => simp [List.isPrefixOf]
  | cons a as ih => simp [List.isPrefixOf, ih]

lemma listContains_append_right {n ys : List Char} (xs : List Char)
    (h : listContains n ys = true) : listContains n (xs ++ ys) = true := by
  induction xs with
  | nil => simpa using h
  | cons c rest ih =>
    simp only [List.cons_append, listContains, Bool.or_eq_true]
    exact Or.inr ih

lemma listContains_append_left {n xs : List Char} (ys : List Char)
    (h : listContains n xs = true) : listContains n (xs ++ ys) = true := by
  induction xs with
  | nil =>
    simp only [listContains, List.isEmpty_iff] at h
    subst h
    simp [listContains_nil ys]
  | cons c rest ih =>
    simp only [listContains, Bool.or_eq_true] at h
    rcases h with h | h
    · simp only [List.cons_append, listContains, Bool.or_eq_true]
      exact Or.inl (by simpa using isPrefixOf_append_of ys h)
    · simp only [List.cons_append, listContains, Bool.or_eq_true]
      exact Or.inr (ih h)

lemma listContains_self (n z : List Char) : listContains n (n ++ z) = true := by
  cases n with
  | nil => simpa using listContains_nil z
  | cons c cs =>
    simp only [List.cons_append, listContains, Bool.or_eq_true]
    exact Or.inl (by simp [isPrefixOf_self_append (c :: cs) z])

lemma toList_append (a b : String) : (a ++ b).toList = a.toList ++ b.toList := by
  simp [String.toList, String.data_append]

lemma strContains_append_right (a b sub : String)
    (h : strContains b sub = true) : strContains (a ++ b) sub = true := by
  unfold strContains at h ⊢
  rw [toList_append]
  exact listContains_append_right _ h

lemma strContains_append_left (a b sub : String)
    (h : strContains a sub = true) : strContains (a ++ b) sub = true := by
  unfold strContains at h ⊢
  rw [toList_append]
  exact listContains_append_left _ h

lemma strContains_self_append (sub z : String) :
    strContains (sub ++ z) sub = true := by
  unfold strContains
  rw [toList_append]
  exact listContains_self _ _

/- Characterization of the inner per-issue loop. -/

lemma runIssues_cons_ok {t : Transport} {mm : List (String × Nat)} {pid : String}
    {tup : Tup} (rest : List Tup)
    (h : (processTuple t mm pid tup).res = .ok ()) :
    runIssues t mm pid (tup :: rest) =
      ⟨(runIssues t mm pid rest).processed + 1, (runIssues t mm pid rest).errors,
        (processTuple t mm pid tup).trace ++ (runIssues t mm pid rest).trace,
        (processTuple t mm pid tup).output ++ (runIssues t mm pid rest).output⟩ := by
  simp only [runIssues, h]

lemma runIssues_cons_err {t : Transport} {mm : List (String × Nat)} {pid : String}
    {tup : Tup} {e : Exn} (rest : List Tup)
    (h : (processTuple t mm pid tup).res = .error e) :
    runIssues t mm pid (tup :: rest) =
      ⟨(runIssues t mm pid rest).processed,
        (tup.1, exnMessage e) :: (runIssues t mm pid rest).errors,
        (processTuple t mm pid tup).trace ++ (runIssues t mm pid rest).trace,
        ((processTuple t mm pid tup).output ++ " ✗ Error: " ++ exnMessage e ++ "\n")
          ++ (runIssues t mm pid rest).output⟩ := by
  simp only [runIssues, h]

lemma runIssues_count (t : Transport) (mm : List (String × Nat)) (pid : String)
    (issues : List Tup) :
    (runIssues t mm pid issues).processed + (runIssues t mm pid issues).errors.length
      = issues.length := by
  induction issues with
  | nil => rfl
  | cons tup rest ih =>
    rcases h : (processTuple t mm pid tup).res with e | u
    · rw [runIssues_cons_err rest h]
      simpa using by omega
    · rw [runIssues_cons_ok rest h]
      simpa using by omega

lemma runIssues_errors_fst (t : Transport) (mm : List (String × Nat)) (pid : String)
    (issues : List Tup) :
    (runIssues t mm pid issues).errors.map Prod.fst =
      (issues.filter (fun tup => !exOk (processTuple t mm pid tup).res)).map
        (fun tup => tup.1) := by
  induction issues with
  | nil => rfl
  | cons tup rest ih =>
    rcases h : (processTuple t mm pid tup).res with e | u
    · rw [runIssues_cons_err rest h]
      simp [List.filter_cons, h, exOk, ih]
    · rw [runIssues_cons_ok rest h]
      simp [List.filter_cons, h, exOk, ih]

lemma runIssues_processed (t : Transport) (mm : List (String × Nat)) (pid : String)
    (issues : List Tup) :
    (runIssues t mm pid issues).processed =
      (issues.filter (fun tup => exOk (processTuple t mm pid tup).res)).length := by
  induction issues with
  | nil => rfl
  | cons tup rest ih =>
    rcases h : (processTuple t mm pid tup).res with e | u
    · rw [runIssues_cons_err rest h]
      simp [List.filter_cons, h, exOk, ih]
    · rw [runIssues_cons_ok rest h]
      simp [List.filter_cons, h, exOk, ih]

/- Characterization of the outer per-project loop. -/

/-- The tuples of a table whose processing raises, in table order, for a
given transport (using the project id the main loop would use). -/
def failedTuples (t : Transport) (pm : List (String × ProjEntry))
    (mm : List (String × Nat)) (table : List (Nat × List Tup)) : List Tup :=
  (table.map (fun pr =>
    pr.2.filter (fun tup => !exOk (processTuple t mm (pidOf pm pr.1) tup).res))).flatten

lemma runProjects_count (t : Transport) (pm : List (String × ProjEntry))
    (mm : List (String × Nat)) (table : List (Nat × List Tup))
    (acc : LoopAcc) (h : runProjects t pm mm table = .ok acc) :
    acc.processed + acc.errors.length = (table.map (fun pr => pr.2.length)).sum := by
  induction table generalizing acc with
  | nil =>
    simp only [runProjects] at h
    cases h
    rfl
  | cons pr rest ih =>
    obtain ⟨pnum, issues⟩ := pr
    simp only [runProjects] at h
    rcases hl : projectLookup pm pnum with e | ⟨pname, pid⟩ <;> rw [hl] at h
    · cases h
    · rcases hr : runProjects t pm mm rest with e | acc2 <;> rw [hr] at h
      · cases h
      · cases h
        have h1 := runIssues_count t mm pid issues
        have h2 := ih acc2 hr
        simp only [List.map_cons, List.sum_cons]
        simp only [List.length_append]
        omega

lemma runProjects_spec (t : Transport) (pm : List (String × ProjEntry))
    (mm : List (String × Nat)) (table : List (Nat × List Tup))
    (h : ∀ pr ∈ table, exOk (projectLookup pm pr.1) = true) :
    ∃ acc, runProjects t pm mm table = .ok acc ∧
      acc.errors.map Prod.fst = (failedTuples t pm mm table).map (fun tup => tup.1) ∧
      acc.processed + acc.errors.length = (table.map (fun pr => pr.2.length)).sum := by
  induction table with
  | nil => exact ⟨⟨0, [], [], ""⟩, rfl, rfl, rfl⟩
  | cons pr rest ih =>
    obtain ⟨pnum, issues⟩ := pr
    have hhd : exOk (projectLookup pm pnum) = true := h _ (List.mem_cons_self _ _)
    rcases hl : projectLookup pm pnum with e | ⟨pname, pid⟩
    · rw [hl] at hhd; cases hhd
    · obtain ⟨acc2, hr, herr2, hcnt2⟩ := ih (fun pr hpr => h pr (List.mem_cons_of_mem _ hpr))
      have hrun : runProjects t pm mm ((pnum, issues) :: rest) =
          .ok ⟨(runIssues t mm pid issues).processed + acc2.processed,
            (runIssues t mm pid issues).errors ++ acc2.errors,
            (runIssues t mm pid issues).trace ++ acc2.trace,
            ("\nProcessing " ++ pname ++ " (" ++ toString issues.length
              ++ " issues)...\n") ++ (runIssues t mm pid issues).output
              ++ acc2.output⟩ := by
        simp only [runProjects, hl, hr]
      refine ⟨_, hrun, ?_, ?_⟩
      · have hpid : pidOf pm pnum = pid := by simp [pidOf, hl]
        simp only [failedTuples, List.map_cons, List.flatten, List.map_append,
          List.map_flatten, hpid]
        simp only [List.map_append, runIssues_errors_fst t mm pid issues, herr2]
        simp [failedTuples, List.map_flatten]
      · have h1 := runIssues_count t mm pid issues
        simp only [List.map_cons, List.sum_cons, List.length_append]
        omega

/- Claim theorems about set_issue_due_date. -/

/-- C1: the set-due-date operation first fetches the current body (the
first external call is the body view), and when the fetched body already
contains the exact marker line for the date, the operation returns True
having issued no body-edit call; conversely a body-edit call is issued only
when the marker is not a substring of the fetched body. -/
theorem due_date_edit_only_if_marker_absent
    (t : Transport) (n : Nat) (date_str : String) (d : Json) (old : String)
    (hv : t.viewBody n = .ok d) (hb : pyGetBodyField d = .ok old) :
    (set_issue_due_date t n date_str).2.head? = some (.viewBody n) ∧
    (strContains old ("**Due Date:** " ++ date_str) = true →
      set_issue_due_date t n date_str = (.ok true, [.viewBody n])) ∧
    (hasAnyBodyEdit (set_issue_due_date t n date_str).2 = true →
      strContains old ("**Due Date:** " ++ date_str) = false) := by
  simp only [set_issue_due_date, hv, hb]
  by_cases hm : strContains old ("**Due Date:** " ++ date_str) = true
  · simp [hm, hasAnyBodyEdit]
  · rcases he : t.bodyEdit n (if old = "" then "**Due Date:** " ++ date_str
        else old ++ "\n\n" ++ ("**Due Date:** " ++ date_str)) with s | u <;>
      simp_all [hasAnyBodyEdit]

/-- C9: whenever the set-due-date operation issues a body edit, the new
body is exactly the old body followed by a blank line and the marker line
when the old body is non-empty, and exactly the marker line when the old
body is empty (a null body reads as empty); the old body is preserved
verbatim as a prefix. -/
theorem due_date_edit_preserves_old_body
    (t : Transport) (n : Nat) (date_str : String) (d : Json) (old : String)
    (hv : t.viewBody n = .ok d) (hb : pyGetBodyField d = .ok old) :
    ∀ b, hasBodyEditCall n b (set_issue_due_date t n date_str).2 = true →
      (old = "" ∧ b = "**Due Date:** " ++ date_str) ∨
      (old ≠ "" ∧ b = old ++ "\n\n" ++ ("**Due Date:** " ++ date_str)) := by
  intro b hcall
  simp only [set_issue_due_date, hv, hb] at hcall
  by_cases hm : strContains old ("**Due Date:** " ++ date_str) = true
  · simp [hm, hasBodyEditCall] at hcall
  · by_cases ho : old = ""
    · left
      refine ⟨ho, ?_⟩
      rcases he : t.bodyEdit n (if old = "" then "**Due Date:** " ++ date_str
          else old ++ "\n\n" ++ ("**Due Date:** " ++ date_str)) with s | u <;>
        simp_all [hasBodyEditCall]
    · right
      refine ⟨ho, ?_⟩
      rcases he : t.bodyEdit n (if old = "" then "**Due Date:** " ++ date_str
          else old ++ "\n\n" ++ ("**Due Date:** " ++ date_str)) with s | u <;>
        simp_all [hasBodyEditCall]

/-- A transport whose body views return a body that already carries the
due-date marker for 2025-11-07; all other calls succeed. -/
def markerBodyTransport : Transport :=
  { okTransport with
    viewBody := fun _ => .ok (.obj [("body", .str "**Due Date:** 2025-11-07")]) }

/-- Witness for C1: with the marker already in the body, the operation
returns True and its only external call is the body view — no edit. -/
theorem due_date_edit_only_if_marker_absent_witness :
    set_issue_due_date markerBodyTransport 31 "2025-11-07"
      = (.ok true, [.viewBody 31]) :=
  (due_date_edit_only_if_marker_absent markerBodyTransport 31 "2025-11-07"
    (.obj [("body", .str "**Due Date:** 2025-11-07")]) "**Due Date:** 2025-11-07"
    rfl rfl).2.1 (by decide)

/-- Witness for C9: the body edit issued for the body "Old body" appends a
blank line and the marker to the old body. -/
theorem due_date_edit_preserves_old_body_witness :
    ("Old body" = "" ∧
      "Old body\n\n**Due Date:** 2025-11-07" = "**Due Date:** " ++ "2025-11-07") ∨
    ("Old body" ≠ "" ∧
      "Old body\n\n**Due Date:** 2025-11-07"
        = "Old body" ++ "\n\n" ++ ("**Due Date:** " ++ "2025-11-07")) :=
  due_date_edit_preserves_old_body okTransport 31 "2025-11-07"
    (.obj [("body", .str "Old body")]) "Old body" rfl rfl
    "Old body\n\n**Due Date:** 2025-11-07" (by decide)

lemma get_issue_node_id_trace (t : Transport) (n : Nat) :
    (get_issue_node_id t n).2 = [.issueQuery n] := by
  rcases h : t.issueQuery n with s | d <;> simp [get_issue_node_id, h]

lemma get_issue_node_id_pair (t : Transport) (n : Nat) {r : Except Exn Json}
    (h : (get_issue_node_id t n).1 = r) :
    get_issue_node_id t n = (r, [.issueQuery n]) := by
  have h2 := get_issue_node_id_trace t n
  rcases hp : get_issue_node_id t n with ⟨a, b⟩
  rw [hp] at h h2
  simp_all

/-- C2: when the add-to-project mutation fails and its captured stderr
contains (case-insensitively) "already exists" or "already added", the
operation returns None without raising; the tuple then runs to completion:
it is counted as processed, contributes no failure-list entry, and the
printed progress reports "already in project". -/
theorem already_in_project_treated_as_success
    (t : Transport) (mm : List (String × Nat)) (pid : String)
    (n : Nat) (phase milestone date_str : String)
    (nodeId : Json) (stderr : String) (mnum : Nat) (dd : Bool)
    (hq : (get_issue_node_id t n).1 = .ok nodeId)
    (ha : t.addMutation pid nodeId = .error stderr)
    (hs : strContains (pyLower stderr) "already exists" = true ∨
          strContains (pyLower stderr) "already added" = true)
    (hm : pyDictGet mm milestone = .ok mnum)
    (hd : (set_issue_due_date t n date_str).1 = .ok dd) :
    add_issue_to_project t pid nodeId
        = (.ok none, [.addToProject pid nodeId]) ∧
    (processTuple t mm pid (n, phase, milestone, date_str)).res = .ok () ∧
    (runIssues t mm pid [(n, phase, milestone, date_str)]).processed = 1 ∧
    (runIssues t mm pid [(n, phase, milestone, date_str)]).errors = [] ∧
    strContains (processTuple t mm pid (n, phase, milestone, date_str)).output
      "already in project" = true := by
  have hcond : (strContains (pyLower stderr) "already exists"
      || strContains (pyLower stderr) "already added") = true := by
    rcases hs with h | h <;> simp [h]
  have hadd : add_issue_to_project t pid nodeId
      = (.ok none, [.addToProject pid nodeId]) := by
    simp only [add_issue_to_project, ha, hcond, if_true]
  have hq' := get_issue_node_id_pair t n hq
  rcases hdd : set_issue_due_date t n date_str with ⟨res4, c4⟩
  rw [hdd] at hd
  simp only at hd
  subst hd
  rcases hms : t.milestoneEdit n mnum with s | u
  · have hpt : processTuple t mm pid (n, phase, milestone, date_str) =
        ⟨.ok (), [Call.issueQuery n] ++ [Call.addToProject pid nodeId]
          ++ [Call.milestoneEdit n mnum] ++ c4,
          "  Issue #" ++ (toString n ++ ("... already in project, "
            ++ ((if dd then "due date set" else "") ++ " ✓\n")))⟩ := by
      simp only [processTuple, hq', hadd, hm, set_issue_milestone, hms, hdd,
        pyTruthyOpt]
      simp [String.append_assoc]
    refine ⟨hadd, ?_, ?_, ?_, ?_⟩
    · rw [hpt]
    · rw [runIssues_cons_ok [] (by rw [hpt])]
      rfl
    · rw [runIssues_cons_ok [] (by rw [hpt])]
      rfl
    · rw [hpt]
      exact strContains_append_right _ _ _ (strContains_append_right _ _ _
        (strContains_append_left _ _ _ (by decide)))
  · have hpt : processTuple t mm pid (n, phase, milestone, date_str) =
        ⟨.ok (), [Call.issueQuery n] ++ [Call.addToProject pid nodeId]
          ++ [Call.milestoneEdit n mnum] ++ c4,
          "  Issue #" ++ (toString n
            ++ ("... already in project, milestone set, "
              ++ ((if dd then "due date set" else "") ++ " ✓\n")))⟩ := by
      simp only [processTuple, hq', hadd, hm, set_issue_milestone, hms, hdd,
        pyTruthyOpt]
      simp [String.append_assoc]
    refine ⟨hadd, ?_, ?_, ?_, ?_⟩
    · rw [hpt]
    · rw [runIssues_cons_ok [] (by rw [hpt])]
      rfl
    · rw [runIssues_cons_ok [] (by rw [hpt])]
      rfl
    · rw [hpt]
      exact strContains_append_right _ _ _ (strContains_append_right _ _ _
        (strContains_append_left _ _ _ (by decide)))

/-- A transport whose add-to-project mutation always fails reporting that
the item is already in the project; all other calls succeed. -/
def alreadyInProjectTransport : Transport :=
  { okTransport with
    addMutation := fun _ _ => .error "GraphQL: The project item already exists" }

/-- Witness for C2: a concrete already-in-project failure is absorbed, the
tuple is processed, no failure entry is recorded, and the progress text
says "already in project". -/
theorem already_in_project_treated_as_success_witness :
    add_issue_to_project alreadyInProjectTransport "PVT_kwHOABsZ684BHe6N"
        (.str "NODE31")
        = (.ok none, [.addToProject "PVT_kwHOABsZ684BHe6N" (.str "NODE31")]) ∧
    (processTuple alreadyInProjectTransport milestone_map "PVT_kwHOABsZ684BHe6N"
        (31, "Phase 1: Security", "Security Fix", "2025-11-07")).res = .ok () ∧
    (runIssues alreadyInProjectTransport milestone_map "PVT_kwHOABsZ684BHe6N"
        [(31, "Phase 1: Security", "Security Fix", "2025-11-07")]).processed = 1 ∧
    (runIssues alreadyInProjectTransport milestone_map "PVT_kwHOABsZ684BHe6N"
        [(31, "Phase 1: Security", "Security Fix", "2025-11-07")]).errors = [] ∧
    strContains (processTuple alreadyInProjectTransport milestone_map
        "PVT_kwHOABsZ684BHe6N"
        (31, "Phase 1: Security", "Security Fix", "2025-11-07")).output
      "already in project" = true :=
  already_in_project_treated_as_success alreadyInProjectTransport milestone_map
    "PVT_kwHOABsZ684BHe6N" 31 "Phase 1: Security" "Security Fix" "2025-11-07"
    (.str "NODE31") "GraphQL: The project item already exists" 2 true
    rfl rfl (Or.inl (by decide)) rfl rfl

lemma add_issue_to_project_trace (t : Transport) (pid : String) (nodeId : Json) :
    (add_issue_to_project t pid nodeId).2 = [.addToProject pid nodeId] := by
  rcases h : t.addMutation pid nodeId with s | d
  · simp only [add_issue_to_project, h]
    split <;> rfl
  · simp [add_issue_to_project, h]

lemma add_issue_to_project_pair (t : Transport) (pid : String) (nodeId : Json)
    {r : Except Exn (Option Json)} (h : (add_issue_to_project t pid nodeId).1 = r) :
    add_issue_to_project t pid nodeId = (r, [.addToProject pid nodeId]) := by
  have h2 := add_issue_to_project_trace t pid nodeId
  rcases hp : add_issue_to_project t pid nodeId with ⟨a, b⟩
  rw [hp] at h h2
  simp_all

lemma set_issue_due_date_head (t : Transport) (n : Nat) (date_str : String) :
    (set_issue_due_date t n date_str).2.head? = some (.viewBody n) := by
  rcases hv : t.viewBody n with s | j
  · simp [set_issue_due_date, hv]
  · simp only [set_issue_due_date, hv]
    rcases hb : pyGetBodyField j with e | body
    · rfl
    · by_cases hm : strContains body ("**Due Date:** " ++ date_str) = true
      · simp [hm]
      · rcases he : t.bodyEdit n (if body = "" then "**Due Date:** " ++ date_str
            else body ++ "\n\n" ++ ("**Due Date:** " ++ date_str)) with s | u <;>
          simp_all

lemma hasViewCall_append_right (n : Nat) (xs c4 : List Call)
    (h : hasViewCall n c4 = true) : hasViewCall n (xs ++ c4) = true := by
  induction xs with
  | nil => simpa using h
  | cons c rest ih =>
    cases c <;> simp only [List.cons_append, hasViewCall, Bool.or_eq_true] <;>
      first
        | exact ih
        | exact Or.inr ih

lemma hasViewCall_of_head (n : Nat) (c4 : List Call)
    (h : c4.head? = some (.viewBody n)) : hasViewCall n c4 = true := by
  rcases c4 with _ | ⟨c, rest⟩
  · simp at h
  · simp only [List.head?_cons, Option.some.injEq] at h
    subst h
    simp [hasViewCall]

/-- A transport whose milestone edits always fail; all other calls
succeed. -/
def msFailTransport : Transport :=
  { okTransport with milestoneEdit := fun _ _ => .error "milestone edit failed" }

/-- Counterexample to C5 as stated: with a transport whose milestone edit
fails and everything else succeeds, the set-milestone step fails (returns
False), yet the completed run records no entry in the failure list — the
milestone failure does not appear in the run's failure record. -/
theorem milestone_failure_not_recorded :
    (set_issue_milestone msFailTransport 31 2).1 = false ∧
    runErrors (mainRun msFailTransport project_map milestone_map
      [(2, [(31, "Phase 1: Security", "Security Fix", "2025-11-07")])]) = [] ∧
    runProcessed (mainRun msFailTransport project_map milestone_map
      [(2, [(31, "Phase 1: Security", "Security Fix", "2025-11-07")])]) = 1 :=
  ⟨rfl, rfl, rfl⟩

/-- C5 (amended): a failure of the set-milestone step does not raise and is
not recorded in the run's failure list; it does not stop the subsequent
set-due-date step, which is attempted regardless (the body view call for
the issue appears in the tuple's trace), and the tuple is still counted as
processed. -/
theorem milestone_failure_best_effort
    (t : Transport) (mm : List (String × Nat)) (pid : String)
    (n : Nat) (phase milestone date_str edErr : String)
    (nodeId : Json) (addRes : Option Json) (mnum : Nat) (dd : Bool)
    (hq : (get_issue_node_id t n).1 = .ok nodeId)
    (ha : (add_issue_to_project t pid nodeId).1 = .ok addRes)
    (hm : pyDictGet mm milestone = .ok mnum)
    (hms : t.milestoneEdit n mnum = .error edErr)
    (hd : (set_issue_due_date t n date_str).1 = .ok dd) :
    (set_issue_milestone t n mnum).1 = false ∧
    (processTuple t mm pid (n, phase, milestone, date_str)).res = .ok () ∧
    hasViewCall n (processTuple t mm pid (n, phase, milestone, date_str)).trace
      = true ∧
    (runIssues t mm pid [(n, phase, milestone, date_str)]).errors = [] ∧
    (runIssues t mm pid [(n, phase, milestone, date_str)]).processed = 1 := by
  have hq' := get_issue_node_id_pair t n hq
  have ha' := add_issue_to_project_pair t pid nodeId ha
  rcases hdd : set_issue_due_date t n date_str with ⟨res4, c4⟩
  rw [hdd] at hd
  simp only at hd
  subst hd
  have hpt : processTuple t mm pid (n, phase, milestone, date_str) =
      ⟨.ok (), [Call.issueQuery n] ++ [Call.addToProject pid nodeId]
        ++ [Call.milestoneEdit n mnum] ++ c4,
        ("  Issue #" ++ toString n ++ "... "
          ++ (if pyTruthyOpt addRes then "added to project, "
            else "already in project, "))
          ++ ((if dd then "due date set" else "") ++ " ✓\n")⟩ := by
    simp only [processTuple, hq', ha', hm, set_issue_milestone, hms, hdd]
    simp [String.append_assoc]
  refine ⟨by simp [set_issue_milestone, hms], ?_, ?_, ?_, ?_⟩
  · rw [hpt]
  · rw [hpt]
    refine hasViewCall_append_right n _ c4 (hasViewCall_of_head n c4 ?_)
    have := set_issue_due_date_head t n date_str
    rw [hdd] at this
    exact this
  · rw [runIssues_cons_ok [] (by rw [hpt])]
    rfl
  · rw [runIssues_cons_ok [] (by rw [hpt])]
    rfl

/-- Witness for the amended C5, at a concrete transport whose milestone
edit fails. -/
theorem milestone_failure_best_effort_witness :
    (set_issue_milestone msFailTransport 31 2).1 = false ∧
    (processTuple msFailTransport milestone_map "PVT_kwHOABsZ684BHe6N"
      (31, "Phase 1: Security", "Security Fix", "2025-11-07")).res = .ok () ∧
    hasViewCall 31 (processTuple msFailTransport milestone_map
      "PVT_kwHOABsZ684BHe6N"
      (31, "Phase 1: Security", "Security Fix", "2025-11-07")).trace = true ∧
    (runIssues msFailTransport milestone_map "PVT_kwHOABsZ684BHe6N"
      [(31, "Phase 1: Security", "Security Fix", "2025-11-07")]).errors = [] ∧
    (runIssues msFailTransport milestone_map "PVT_kwHOABsZ684BHe6N"
      [(31, "Phase 1: Security", "Security Fix", "2025-11-07")]).processed = 1 :=
  milestone_failure_best_effort msFailTransport milestone_map
    "PVT_kwHOABsZ684BHe6N" 31 "Phase 1: Security" "Security Fix" "2025-11-07"
    "milestone edit failed" (.str "NODE31") (some (.str "ITEM")) 2 true
    rfl rfl rfl rfl rfl

/-- Modelled from the spec: the behavior of the external system when the
issue-id query names an issue that does not exist is not part of the
source.  Per the spec, resolving a nonexistent issue fails with a
LookupError; this transport realizes that by answering the query for a
nonexistent issue (existing n = false) with a response whose repository
object carries no issue entry, so the source's nested subscript raises
KeyError — a LookupError — at the "issue" key.  Queries for existing
issues and all other calls are delegated to the base transport. -/
def lookupTransport (existing : Nat → Bool) (base : Transport) : Transport :=
  { base with issueQuery := fun n =>
      if existing n then base.issueQuery n
      else .ok (.obj [("data", .obj [("repository", .obj [])])]) }

/-- C6: for an issue number that does not exist in the external system, the
resolve step fails with a LookupError; this is fatal only for that tuple —
its remaining steps are skipped (its trace is just the one query) and the
run proceeds to the next tuple, recording one failure entry for it. -/
theorem nonexistent_issue_fails_only_that_tuple
    (existing : Nat → Bool) (base : Transport) (mm : List (String × Nat))
    (pid : String) (n : Nat) (phase milestone date_str : String)
    (rest : List Tup) (hne : existing n = false) :
    (get_issue_node_id (lookupTransport existing base) n).1
      = .error (.keyError "issue") ∧
    isLookupError (.keyError "issue") = true ∧
    (processTuple (lookupTransport existing base) mm pid
      (n, phase, milestone, date_str)).res = .error (.keyError "issue") ∧
    (processTuple (lookupTransport existing base) mm pid
      (n, phase, milestone, date_str)).trace = [.issueQuery n] ∧
    (runIssues (lookupTransport existing base) mm pid
        ((n, phase, milestone, date_str) :: rest)).errors
      = (n, exnMessage (.keyError "issue"))
          :: (runIssues (lookupTransport existing base) mm pid rest).errors ∧
    (runIssues (lookupTransport existing base) mm pid
        ((n, phase, milestone, date_str) :: rest)).processed
      = (runIssues (lookupTransport existing base) mm pid rest).processed := by
  have hq1 : (lookupTransport existing base).issueQuery n
      = .ok (.obj [("data", .obj [("repository", .obj [])])]) := by
    simp [lookupTransport, hne]
  have hq : get_issue_node_id (lookupTransport existing base) n
      = (.error (.keyError "issue"), [.issueQuery n]) := by
    simp only [get_issue_node_id, hq1]
    rfl
  have hpt : processTuple (lookupTransport existing base) mm pid
      (n, phase, milestone, date_str)
      = ⟨.error (.keyError "issue"), [.issueQuery n],
          "  Issue #" ++ toString n ++ "... "⟩ := by
    simp only [processTuple, hq]
  refine ⟨by rw [hq], rfl, by rw [hpt], by rw [hpt], ?_, ?_⟩
  · rw [runIssues_cons_err rest (by rw [hpt])]
  · rw [runIssues_cons_err rest (by rw [hpt])]

/-- Witness for C6: with no issue existing, resolving issue 999 fails with
the KeyError LookupError, only that tuple is aborted, and the run proceeds
to the next tuple. -/
theorem nonexistent_issue_fails_only_that_tuple_witness :
    (get_issue_node_id (lookupTransport (fun _ => false) okTransport) 999).1
      = .error (.keyError "issue") ∧
    isLookupError (.keyError "issue") = true ∧
    (processTuple (lookupTransport (fun _ => false) okTransport) milestone_map
      "PVT_kwHOABsZ684BHe6N"
      (999, "Phase 1: Security", "Security Fix", "2025-11-07")).res
      = .error (.keyError "issue") ∧
    (processTuple (lookupTransport (fun _ => false) okTransport) milestone_map
      "PVT_kwHOABsZ684BHe6N"
      (999, "Phase 1: Security", "Security Fix", "2025-11-07")).trace
      = [.issueQuery 999] ∧
    (runIssues (lookupTransport (fun _ => false) okTransport) milestone_map
        "PVT_kwHOABsZ684BHe6N"
        ((999, "Phase 1: Security", "Security Fix", "2025-11-07")
          :: [(31, "Phase 1: Security", "Security Fix", "2025-11-07")])).errors
      = (999, exnMessage (.keyError "issue"))
          :: (runIssues (lookupTransport (fun _ => false) okTransport)
              milestone_map "PVT_kwHOABsZ684BHe6N"
              [(31, "Phase 1: Security", "Security Fix", "2025-11-07")]).errors ∧
    (runIssues (lookupTransport (fun _ => false) okTransport) milestone_map
        "PVT_kwHOABsZ684BHe6N"
        ((999, "Phase 1: Security", "Security Fix", "2025-11-07")
          :: [(31, "Phase 1: Security", "Security Fix", "2025-11-07")])).processed
      = (runIssues (lookupTransport (fun _ => false) okTransport) milestone_map
          "PVT_kwHOABsZ684BHe6N"
          [(31, "Phase 1: Security", "Security Fix", "2025-11-07")]).processed :=
  nonexistent_issue_fails_only_that_tuple (fun _ => false) okTransport
    milestone_map "PVT_kwHOABsZ684BHe6N" 999 "Phase 1: Security" "Security Fix"
    "2025-11-07" [(31, "Phase 1: Security", "Security Fix", "2025-11-07")] rfl

lemma mainRun_ok (t : Transport) (pm : List (String × ProjEntry))
    (mm : List (String × Nat)) (table : List (Nat × List Tup)) (acc : LoopAcc)
    (hacc : runProjects t pm mm table = .ok acc) :
    ∃ r, mainRun t pm mm table = .ok r ∧ r.processed = acc.processed ∧
      r.errors = acc.errors ∧ r.trace = acc.trace ∧
      r.total = (table.map (fun pr => pr.2.length)).sum := by
  simp only [mainRun, hacc]
  exact ⟨_, rfl, rfl, rfl, rfl, rfl⟩

lemma mainRun_inv (t : Transport) (pm : List (String × ProjEntry))
    (mm : List (String × Nat)) (table : List (Nat × List Tup)) (r : RunOutcome)
    (h : mainRun t pm mm table = .ok r) :
    ∃ acc, runProjects t pm mm table = .ok acc ∧ r.processed = acc.processed ∧
      r.errors = acc.errors ∧
      r.total = (table.map (fun pr => pr.2.length)).sum := by
  unfold mainRun at h
  rcases hacc : runProjects t pm mm table with e | acc <;> rw [hacc] at h
  · cases h
  · refine ⟨acc, rfl, ?_⟩
    cases h
    exact ⟨rfl, rfl, rfl⟩

lemma processTuple_failLookup (mm : List (String × Nat)) (pid : String)
    (tup : Tup) :
    (processTuple failLookupTransport mm pid tup).res
      = .error (.calledProcessError "lookup failed") := by
  obtain ⟨n, phase, milestone, date_str⟩ := tup
  have h1 : failLookupTransport.issueQuery n = .error "lookup failed" := rfl
  have hq : get_issue_node_id failLookupTransport n
      = (.error (.calledProcessError "lookup failed"), [.issueQuery n]) := by
    simp only [get_issue_node_id, h1]
  simp only [processTuple, hq]

lemma flatten_filter (p : Tup → Bool) (ls : List (List Tup)) :
    (ls.map (fun l => l.filter p)).flatten = ls.flatten.filter p := by
  induction ls with
  | nil => rfl
  | cons l rest ih =>
    simp only [List.map_cons, List.flatten_cons, List.filter_append, ih]

lemma sum_lengths (table : List (Nat × List Tup)) :
    (table.map (fun pr => pr.2.length)).sum
      = ((table.map (fun pr => pr.2)).flatten).length := by
  induction table with
  | nil => rfl
  | cons pr rest ih => simp [List.length_append, ih]

/-- Counterexample to C3 as stated: the claim quantifies over every table,
but for a table whose project number matches no project-map entry the
project-name lookup raises an uncaught IndexError before any tuple is
processed, and the bulk-assignment process exits with status 1, not 0. -/
theorem unmapped_project_key_crashes_run :
    scriptExitCode okTransport [(99, [])] = 1 := rfl

/-- C3 (amended): for every table whose project numbers all resolve in the
project map, and every transport behavior, the run completes without an
uncaught exception and the process exits 0; an exception raised while
processing one tuple is recorded as an (issue number, message) entry, and
exactly the failing tuples are recorded, in order.  In particular, with a
transport whose issue-id lookups always fail, the run still completes,
nothing is processed, and every tuple of the table appears in the failure
list. -/
theorem failures_contained_and_exit_zero
    (t : Transport) (table : List (Nat × List Tup))
    (hvalid : ∀ pr ∈ table, exOk (projectLookup project_map pr.1) = true) :
    (∃ r, mainRun t project_map milestone_map table = .ok r ∧
      scriptExitCode t table = 0 ∧
      r.errors.map Prod.fst
        = (failedTuples t project_map milestone_map table).map (fun tup => tup.1) ∧
      r.processed + r.errors.length = r.total) ∧
    (∃ r, mainRun failLookupTransport project_map milestone_map table = .ok r ∧
      r.processed = 0 ∧
      r.errors.map Prod.fst
        = ((table.map (fun pr => pr.2)).flatten).map (fun tup => tup.1)) := by
  constructor
  · obtain ⟨acc, hacc, herr, hcnt⟩ :=
      runProjects_spec t project_map milestone_map table hvalid
    obtain ⟨r, hr, hp, he, _, ht⟩ :=
      mainRun_ok t project_map milestone_map table acc hacc
    refine ⟨r, hr, ?_, ?_, ?_⟩
    · simp [scriptExitCode, hr]
    · rw [he, herr]
    · rw [hp, he, ht]
      exact hcnt
  · obtain ⟨acc, hacc, herr, hcnt⟩ :=
      runProjects_spec failLookupTransport project_map milestone_map table hvalid
    obtain ⟨r, hr, hp, he, _, ht⟩ :=
      mainRun_ok failLookupTransport project_map milestone_map table acc hacc
    have hall : failedTuples failLookupTransport project_map milestone_map table
        = (table.map (fun pr => pr.2)).flatten := by
      unfold failedTuples
      congr 1
      refine List.map_congr_left ?_
      intro pr _
      refine List.filter_eq_self.mpr ?_
      intro tup _
      simp [processTuple_failLookup, exOk]
    have hfst : r.errors.map Prod.fst
        = ((table.map (fun pr => pr.2)).flatten).map (fun tup => tup.1) := by
      rw [he, herr, hall]
    have hlen : r.errors.length
        = ((table.map (fun pr => pr.2)).flatten).length := by
      have hc := congrArg List.length hfst
      simpa only [List.length_map] using hc
    have hsum := sum_lengths table
    refine ⟨r, hr, ?_, hfst⟩
    have hel : r.errors.length = acc.errors.length := by rw [he]
    omega

/-- Witness for the amended C3, at a one-project one-tuple table whose
project number is mapped. -/
theorem failures_contained_and_exit_zero_witness :
    (∃ r, mainRun okTransport project_map milestone_map
        [(2, [(31, "Phase 1: Security", "Security Fix", "2025-11-07")])]
        = .ok r ∧
      scriptExitCode okTransport
        [(2, [(31, "Phase 1: Security", "Security Fix", "2025-11-07")])] = 0 ∧
      r.errors.map Prod.fst
        = (failedTuples okTransport project_map milestone_map
            [(2, [(31, "Phase 1: Security", "Security Fix", "2025-11-07")])]).map
              (fun tup => tup.1) ∧
      r.processed + r.errors.length = r.total) ∧
    (∃ r, mainRun failLookupTransport project_map milestone_map
        [(2, [(31, "Phase 1: Security", "Security Fix", "2025-11-07")])]
        = .ok r ∧
      r.processed = 0 ∧
      r.errors.map Prod.fst
        = (([(2, [(31, "Phase 1: Security", "Security Fix", "2025-11-07")])].map
            (fun pr => pr.2)).flatten).map (fun tup => tup.1)) :=
  failures_contained_and_exit_zero okTransport
    [(2, [(31, "Phase 1: Security", "Security Fix", "2025-11-07")])] (by decide)

/-- C8: at the end of every completed run, the processed counter plus the
length of the failure list equals the total number of assignment tuples in
the table: each tuple contributes to exactly one of the two. -/
theorem processed_plus_failures_equals_total
    (t : Transport) (pm : List (String × ProjEntry)) (mm : List (String × Nat))
    (table : List (Nat × List Tup)) (r : RunOutcome)
    (h : mainRun t pm mm table = .ok r) :
    r.processed + r.errors.length = r.total ∧
    r.total = ((table.map (fun pr => pr.2)).flatten).length := by
  obtain ⟨acc, hacc, hp, he, ht⟩ := mainRun_inv t pm mm table r h
  have hc := runProjects_count t pm mm table acc hacc
  have hs := sum_lengths table
  rw [hp, he, ht]
  exact ⟨hc, hs⟩

/-- Witness for C8, at the concrete all-success one-tuple run. -/
theorem processed_plus_failures_equals_total_witness :
    (⟨1, 1, [], [.issueQuery 31,
        .addToProject "PVT_kwHOABsZ684BHe6N" (.str "NODE31"),
        .milestoneEdit 31 2, .viewBody 31,
        .bodyEdit 31 "Old body\n\n**Due Date:** 2025-11-07"],
      "\nProcessing Security & Infrastructure (1 issues)...\n  Issue #31... added to project, milestone set, due date set ✓\n\n\nCompleted: 1/1 issues processed\n"⟩
      : RunOutcome).processed
      + (⟨1, 1, [], [.issueQuery 31,
          .addToProject "PVT_kwHOABsZ684BHe6N" (.str "NODE31"),
          .milestoneEdit 31 2, .viewBody 31,
          .bodyEdit 31 "Old body\n\n**Due Date:** 2025-11-07"],
        "\nProcessing Security & Infrastructure (1 issues)...\n  Issue #31... added to project, milestone set, due date set ✓\n\n\nCompleted: 1/1 issues processed\n"⟩
        : RunOutcome).errors.length
      = (⟨1, 1, [], [.issueQuery 31,
          .addToProject "PVT_kwHOABsZ684BHe6N" (.str "NODE31"),
          .milestoneEdit 31 2, .viewBody 31,
          .bodyEdit 31 "Old body\n\n**Due Date:** 2025-11-07"],
        "\nProcessing Security & Infrastructure (1 issues)...\n  Issue #31... added to project, milestone set, due date set ✓\n\n\nCompleted: 1/1 issues processed\n"⟩
        : RunOutcome).total ∧
    (⟨1, 1, [], [.issueQuery 31,
        .addToProject "PVT_kwHOABsZ684BHe6N" (.str "NODE31"),
        .milestoneEdit 31 2, .viewBody 31,
        .bodyEdit 31 "Old body\n\n**Due Date:** 2025-11-07"],
      "\nProcessing Security & Infrastructure (1 issues)...\n  Issue #31... added to project, milestone set, due date set ✓\n\n\nCompleted: 1/1 issues processed\n"⟩
      : RunOutcome).total
      = (([(2, [((31 : Nat), "Phase 1: Security", "Security Fix",
          "2025-11-07")])].map (fun pr => pr.2)).flatten).length :=
  processed_plus_failures_equals_total okTransport project_map milestone_map
    [(2, [(31, "Phase 1: Security", "Security Fix", "2025-11-07")])]
    ⟨1, 1, [], [.issueQuery 31,
        .addToProject "PVT_kwHOABsZ684BHe6N" (.str "NODE31"),
        .milestoneEdit 31 2, .viewBody 31,
        .bodyEdit 31 "Old body\n\n**Due Date:** 2025-11-07"],
      "\nProcessing Security & Infrastructure (1 issues)...\n  Issue #31... added to project, milestone set, due date set ✓\n\n\nCompleted: 1/1 issues processed\n"⟩
    rfl

/-- C4: for every table whose project numbers resolve and every transport
that fails for a deterministic subset of tuples (determined by f on the
issue number) and succeeds for the rest, the final processed counter is
the tuple count minus the number of failing tuples, and the failure list
holds exactly the failing issue numbers, in order.  Moreover, in the
concrete one-tuple all-success scenario, the project-add call is made
exactly once, the milestone is set to 2, the body edit writes a body
containing the marker, and the output reports 1/1 processed. -/
theorem processed_equals_total_minus_failed
    (t : Transport) (table : List (Nat × List Tup)) (f : Nat → Bool)
    (hvalid : ∀ pr ∈ table, exOk (projectLookup project_map pr.1) = true)
    (hf : ∀ pr ∈ table, ∀ tup ∈ pr.2,
      exOk (processTuple t milestone_map (pidOf project_map pr.1) tup).res
        = !f tup.1) :
    (∃ r, mainRun t project_map milestone_map table = .ok r ∧
      r.processed = ((table.map (fun pr => pr.2)).flatten).length
        - (((table.map (fun pr => pr.2)).flatten).filter
            (fun tup => f tup.1)).length ∧
      r.errors.map Prod.fst
        = (((table.map (fun pr => pr.2)).flatten).filter
            (fun tup => f tup.1)).map (fun tup => tup.1)) ∧
    (∃ r, mainRun okTransport project_map milestone_map
        [(2, [(31, "Phase 1: Security", "Security Fix", "2025-11-07")])]
        = .ok r ∧
      countAddCalls r.trace = 1 ∧
      hasMilestoneCall 31 2 r.trace = true ∧
      hasBodyEditCall 31 "Old body\n\n**Due Date:** 2025-11-07" r.trace = true ∧
      strContains "Old body\n\n**Due Date:** 2025-11-07"
        "**Due Date:** 2025-11-07" = true ∧
      r.processed = 1 ∧ r.total = 1 ∧
      strContains r.output "Completed: 1/1 issues processed" = true) := by
  constructor
  · obtain ⟨acc, hacc, herr, hcnt⟩ :=
      runProjects_spec t project_map milestone_map table hvalid
    obtain ⟨r, hr, hp, he, _, ht⟩ :=
      mainRun_ok t project_map milestone_map table acc hacc
    have hfail : failedTuples t project_map milestone_map table
        = ((table.map (fun pr => pr.2)).flatten).filter (fun tup => f tup.1) := by
      unfold failedTuples
      have hstep : table.map (fun pr =>
          pr.2.filter (fun tup => !exOk (processTuple t milestone_map
            (pidOf project_map pr.1) tup).res))
          = table.map (fun pr => pr.2.filter (fun tup => f tup.1)) := by
        refine List.map_congr_left ?_
        intro pr hpr
        refine List.filter_congr ?_
        intro tup htup
        rw [hf pr hpr tup htup, Bool.not_not]
      rw [hstep, ← flatten_filter (fun tup => f tup.1)
        (table.map (fun pr => pr.2)), List.map_map]
      rfl
    have hfst : r.errors.map Prod.fst
        = (((table.map (fun pr => pr.2)).flatten).filter
            (fun tup => f tup.1)).map (fun tup => tup.1) := by
      rw [he, herr, hfail]
    refine ⟨r, hr, ?_, hfst⟩
    have hlen : r.errors.length
        = (((table.map (fun pr => pr.2)).flatten).filter
            (fun tup => f tup.1)).length := by
      have hc := congrArg List.length hfst
      simpa only [List.length_map] using hc
    have hel : r.errors.length = acc.errors.length := by rw [he]
    have hsum := sum_lengths table
    omega
  · refine ⟨⟨1, 1, [], [.issueQuery 31,
        .addToProject "PVT_kwHOABsZ684BHe6N" (.str "NODE31"),
        .milestoneEdit 31 2, .viewBody 31,
        .bodyEdit 31 "Old body\n\n**Due Date:** 2025-11-07"],
      "\nProcessing Security & Infrastructure (1 issues)...\n  Issue #31... added to project, milestone set, due date set ✓\n\n\nCompleted: 1/1 issues processed\n"⟩,
      rfl, rfl, rfl, by decide, by decide, rfl, rfl, by decide⟩

/-- A transport for which exactly the issue-id lookup of issue 59 fails;
every other call succeeds. -/
def partialFailTransport : Transport :=
  { okTransport with issueQuery := fun n =>
      if n == 59 then .error "boom" else .ok (goodIssueResponse n) }

/-- Witness for C4: a two-tuple table where exactly issue 59 fails gives
processed = 2 - 1 and a failure list holding exactly issue 59. -/
theorem processed_equals_total_minus_failed_witness :
    ∃ r, mainRun partialFailTransport project_map milestone_map
        [(2, [(31, "Phase 1: Security", "Security Fix", "2025-11-07"),
              (59, "Phase 2: Database", "Database Improvements", "2025-11-08")])]
        = .ok r ∧
      r.processed = (([(2, [((31 : Nat), "Phase 1: Security", "Security Fix",
            "2025-11-07"),
          (59, "Phase 2: Database", "Database Improvements",
            "2025-11-08")])].map (fun pr => pr.2)).flatten).length
        - ((([(2, [((31 : Nat), "Phase 1: Security", "Security Fix",
              "2025-11-07"),
            (59, "Phase 2: Database", "Database Improvements",
              "2025-11-08")])].map (fun pr => pr.2)).flatten).filter
            (fun tup => tup.1 == 59)).length ∧
      r.errors.map Prod.fst
        = ((([(2, [((31 : Nat), "Phase 1: Security", "Security Fix",
              "2025-11-07"),
            (59, "Phase 2: Database", "Database Improvements",
              "2025-11-08")])].map (fun pr => pr.2)).flatten).filter
            (fun tup => tup.1 == 59)).map (fun tup => tup.1) :=
  (processed_equals_total_minus_failed partialFailTransport
    [(2, [(31, "Phase 1: Security", "Security Fix", "2025-11-07"),
          (59, "Phase 2: Database", "Database Improvements", "2025-11-08")])]
    (fun n => n == 59) (by decide) (by decide)).1

/-- C10: the static tables are mutually consistent: every milestone name
occurring in an assignment tuple is a key of the milestone map; every
project-number key of the assignment table equals the number field of
exactly one project-map entry; hence, under the concrete tables and any
transport whatsoever, the main run never raises an uncaught KeyError or
IndexError from the milestone-number or project-name/id lookups — it
always returns an outcome. -/
theorem static_tables_consistent :
    assignments.all (fun pr => pr.2.all (fun tup =>
      exOk (pyDictGet milestone_map tup.2.2.1))) = true ∧
    assignments.all (fun pr =>
      (project_map.filter (fun kv => kv.2.number == pr.1)).length == 1) = true ∧
    assignments.all (fun pr => exOk (projectLookup project_map pr.1)) = true ∧
    ∀ t : Transport, exOk (mainRun t project_map milestone_map assignments)
      = true := by
  refine ⟨by decide, by decide, by decide, ?_⟩
  intro t
  have hvalid : ∀ pr ∈ assignments, exOk (projectLookup project_map pr.1)
      = true := by decide
  obtain ⟨acc, hacc, _, _⟩ :=
    runProjects_spec t project_map milestone_map assignments hvalid
  obtain ⟨r, hr, _⟩ := mainRun_ok t project_map milestone_map assignments acc hacc
  simp [hr, exOk]

end SetupProjects

namespace ConfigureChecks

open SetupProjects (Json Exn jsonLookup pyTruthy)

lemma anyRequiredChecks_ok (rs : List Json) (h : rs.all isObjJson = true) :
    anyRequiredChecks rs = .ok (hasRequiredRule rs) := by
  induction rs with
  | nil => rfl
  | cons r rest ih =>
    simp only [List.all_cons, Bool.and_eq_true] at h
    obtain ⟨hr, hrest⟩ := h
    cases r with
    | obj f =>
      by_cases hm : ruleTypeMatches f = true
      · simp [anyRequiredChecks, hasRequiredRule, hm]
      · simp only [Bool.not_eq_true] at hm
        simp [anyRequiredChecks, hasRequiredRule, hm, ih hrest,
          List.any_cons]
    | null => simp [isObjJson] at hr
    | bool b => simp [isObjJson] at hr
    | num x => simp [isObjJson] at hr
    | str s => simp [isObjJson] at hr
    | arr l => simp [isObjJson] at hr

/-- C7: the ruleset-check script exits 0 exactly when the fetched ruleset
(an object whose rules field is an array of rule objects) contains a rule
of type required_status_checks, and exits 1 both when the ruleset cannot
be fetched and when no such rule exists. -/
theorem ruleset_check_exit_status
    (fields : List (String × Json)) (rs : List Json)
    (hrules : jsonLookup fields "rules" = some (.arr rs))
    (hobjs : rs.all isObjJson = true) :
    checkExitCode none = 1 ∧
    (checkExitCode (some (.obj fields)) = 0 ↔ hasRequiredRule rs = true) ∧
    (checkExitCode (some (.obj fields)) = 1 ↔ hasRequiredRule rs = false) := by
  have htr : pyTruthy (.obj fields) = true := by
    cases fields with
    | nil => simp [jsonLookup] at hrules
    | cons a l => simp [pyTruthy]
  have hupd : update_ruleset_with_required_checks (some (.obj fields))
      = .ok (hasRequiredRule rs) := by
    simp only [update_ruleset_with_required_checks, htr, if_true, hrules,
      Option.getD]
    exact anyRequiredChecks_ok rs hobjs
  refine ⟨rfl, ?_, ?_⟩ <;> rw [checkExitCode, hupd] <;>
    cases hR : hasRequiredRule rs <;> simp [hR]

/-- A well-shaped ruleset response carrying one required_status_checks
rule. -/
def goodRuleset : List (String × Json) :=
  [("name", .str "main"),
   ("rules", .arr [.obj [("type", .str "required_status_checks")]])]

/-- Witness for C7: a fetch failure exits 1; with the concrete ruleset the
exit status is 0 exactly because the required_status_checks rule exists. -/
theorem ruleset_check_exit_status_witness :
    checkExitCode none = 1 ∧
    (checkExitCode (some (.obj goodRuleset)) = 0 ↔
      hasRequiredRule [.obj [("type", .str "required_status_checks")]] = true) ∧
    (checkExitCode (some (.obj goodRuleset)) = 1 ↔
      hasRequiredRule [.obj [("type", .str "required_status_checks")]]
        = false) :=
  ruleset_check_exit_status goodRuleset
    [.obj [("type", .str "required_status_checks")]] rfl (by decide)

end ConfigureChecks
